import Mathlib

/-
Verification of the Book GraphQL API (src/graph_ql/schema.py).

The schema's resolvers and mutation `mutate` methods are embedded directly
from the source. The storage layer behind them (the `Book` Django model and
the ORM's CRUD accessor) is not part of the source tree, so it is modelled
from the spec: §3 (data model, storage-assigned unique `id`), §6 (the five
CRUD operations: get-all, get-by-key, filter-by-field-equality, insert,
update-in-place, delete-by-key) and §7 (NotFound-class errors).
-/

namespace GraphQLDjango

/-- The Book record. Modelled from the spec: the `Book` Django model is not
under `src/`; §3 gives the fields `id` (unique identifier, generated by
storage on insert), `title` (text), `author` (text), `year_published`
(text, stored as string) and `review` (integer score). -/
structure Book where
  id : Nat
  title : String
  author : String
  year_published : String
  review : Int
deriving DecidableEq, Repr

/-- Modelled from the spec: the relational store behind the ORM — the table
of Book rows in storage order, together with the next storage-assigned id
(§3: `id` generated by storage on insert; §6: a relational store holding
the Book table). -/
structure DB where
  books : List Book
  nextId : Nat
deriving DecidableEq, Repr

/-- Modelled from the spec: the NotFound-class error (§7) — Django's
`Book.DoesNotExist`, raised by `get` when no row matches. -/
inductive DbError where
  | DoesNotExist
deriving DecidableEq, Repr

/-- Modelled from the spec: the storage invariant — `id` uniquely
identifies a record (§3), and every stored id was assigned by storage on
insert, hence lies below the next fresh id. -/
def DB.wf (db : DB) : Prop :=
  (db.books.map (fun b => b.id)).Nodup ∧ ∀ b ∈ db.books, b.id < db.nextId

instance (db : DB) : Decidable db.wf := by
  unfold DB.wf
  infer_instance

/-- Modelled from the spec: `Book.objects.all()` — get-all (§6). -/
def objects_all (db : DB) : List Book :=
  db.books

/-- Modelled from the spec: `Book.objects.get(pk=k)` — get-by-key; yields
the record whose `id` equals the key, or fails with the NotFound-class
`DoesNotExist` error, propagated uncaught (§4.1, §7). -/
def objects_get (db : DB) (pk : Nat) : Except DbError Book :=
  match db.books.find? (fun b => b.id == pk) with
  | some b => Except.ok b
  | none => Except.error DbError.DoesNotExist

/-- Modelled from the spec: `Book.objects.filter(review__exact=r)` —
filter-by-field-equality on the `review` field (§4.1, §6). -/
def filter_review (db : DB) (r : Int) : List Book :=
  db.books.filter (fun b => b.review == r)

/-- Modelled from the spec: `save()` on a freshly constructed instance —
insert of a new row with a storage-assigned `id` (§3, §4.2). -/
def save_new (db : DB) (title author year_published : String) (review : Int) :
    DB × Book :=
  let b : Book := ⟨db.nextId, title, author, year_published, review⟩
  (⟨db.books ++ [b], db.nextId + 1⟩, b)

/-- Modelled from the spec: `save()` on a fetched instance — update-in-place
keyed by `id` (§3, §6). -/
def save_existing (db : DB) (b : Book) : DB :=
  ⟨db.books.map (fun x => if x.id == b.id then b else x), db.nextId⟩

/-- Modelled from the spec: `delete()` on a fetched instance —
delete-by-key, a hard delete with no tombstone (§3, §6). -/
def delete_by_id (db : DB) (pk : Nat) : DB :=
  ⟨db.books.filter (fun x => x.id != pk), db.nextId⟩

/-- The `BookInput` graphene input type (schema.py lines 36-41): an
optional `id` plus the four payload fields. -/
structure BookInput where
  id : Option Nat
  title : String
  author : String
  year_published : String
  review : Int
deriving DecidableEq, Repr

/-- `Query.resolve_all_books` (schema.py lines 24-25): returns
`Book.objects.all()`. -/
def resolve_all_books (db : DB) : List Book :=
  objects_all db

/-- `Query.resolve_book` (schema.py lines 27-28): returns
`Book.objects.get(pk=book_id)`; a `DoesNotExist` failure propagates. -/
def resolve_book (db : DB) (book_id : Nat) : Except DbError Book :=
  objects_get db book_id

/-- `Query.resolve_review` (schema.py lines 30-31): returns
`Book.objects.filter(review__exact=book_review)`. -/
def resolve_review (db : DB) (book_review : Int) : List Book :=
  filter_review db book_review

/-- Truthiness of the fetched instance in `if book_instance:` (schema.py
line 82): a Django model instance does not override `__bool__`, so any
object reaching this test is truthy. -/
def bookTruthy (_b : Book) : Bool :=
  true

/-- `CreateBook.mutate` (schema.py lines 57-66): constructs a `Book` from
the four payload fields of `book_data` (the input `id` is never read),
calls `save()`, and returns the new instance as the `book` result field.
The returned pair is (post-state, result). -/
def CreateBook_mutate (db : DB) (book_data : BookInput) : DB × Book :=
  save_new db book_data.title book_data.author book_data.year_published
    book_data.review

/-- `UpdateBook.mutate` (schema.py lines 78-90): `Book.objects.get` keyed
by `book_data.id` (a raised `DoesNotExist` propagates before any write, so
the store is left as it was; `pk=None` matches no row), then the four
fields are overwritten from the input, `save()` persists the instance, and
it is returned as the `book` result field. The `return UpdateBook(book=None)`
line runs only when the fetched instance is falsy. The returned pair is
(post-state, result). -/
def UpdateBook_mutate (db : DB) (book_data : BookInput) :
    DB × Except DbError (Option Book) :=
  match book_data.id with
  | none => (db, Except.error DbError.DoesNotExist)
  | some pk =>
    match objects_get db pk with
    | Except.error e => (db, Except.error e)
    | Except.ok book_instance =>
      if bookTruthy book_instance then
        let updated : Book :=
          ⟨book_instance.id, book_data.title, book_data.author,
            book_data.year_published, book_data.review⟩
        (save_existing db updated, Except.ok (some updated))
      else
        (db, Except.ok none)

/-- `DeleteBook.mutate` (schema.py lines 101-106): `Book.objects.get(pk=id)`
(a raised `DoesNotExist` propagates before any write, so the store is left
as it was), then `book_instance.delete()`, then `return None`, which leaves
the declared `book` result field null. The returned pair is
(post-state, result). -/
def DeleteBook_mutate (db : DB) (id : Nat) : DB × Except DbError (Option Book) :=
  match objects_get db id with
  | Except.error e => (db, Except.error e)
  | Except.ok book_instance =>
    (delete_by_id db book_instance.id, Except.ok none)

/-- A sample stored record, used by the concrete witnesses. -/
def book1 : Book :=
  ⟨1, "A", "B", "2020", 5⟩

/-- A second sample stored record. -/
def book2 : Book :=
  ⟨2, "C", "D", "2021", 3⟩

/-- A sample well-formed store holding `book1` and `book2`. -/
def db0 : DB :=
  ⟨[book1, book2], 3⟩

/-- A sample update payload targeting the existing id 1. -/
def bd1 : BookInput :=
  ⟨some 1, "A2", "B", "2020", 5⟩

/-- A sample payload whose id 99 matches no stored record. -/
def bd99 : BookInput :=
  ⟨some 99, "X", "Y", "Z", 0⟩

example : db0.wf := by decide
example : objects_get db0 1 = Except.ok book1 := by rfl
example : objects_get db0 99 = Except.error DbError.DoesNotExist := by rfl

/-- Unfolding lemma: `objects_get` succeeds exactly when `find?` does. -/
theorem objects_get_of_find (db : DB) (pk : Nat) (b : Book)
    (h : db.books.find? (fun x => x.id == pk) = some b) :
    objects_get db pk = Except.ok b := by
  unfold objects_get
  rw [h]

/-- Unfolding lemma: `objects_get` fails exactly when `find?` does. -/
theorem objects_get_of_find_none (db : DB) (pk : Nat)
    (h : db.books.find? (fun x => x.id == pk) = none) :
    objects_get db pk = Except.error DbError.DoesNotExist := by
  unfold objects_get
  rw [h]

/-- Inversion: a successful `objects_get` comes from a successful `find?`. -/
theorem find_of_objects_get {db : DB} {pk : Nat} {b : Book}
    (h : objects_get db pk = Except.ok b) :
    db.books.find? (fun x => x.id == pk) = some b := by
  unfold objects_get at h
  cases hf : db.books.find? (fun x => x.id == pk) with
  | none =>
    rw [hf] at h
    exact absurd h (by simp)
  | some c =>
    rw [hf] at h
    injection h with h
    exact congrArg some h

/-- Inversion: a failing `objects_get` comes from a failing `find?`. -/
theorem find_none_of_objects_get {db : DB} {pk : Nat}
    (h : objects_get db pk = Except.error DbError.DoesNotExist) :
    db.books.find? (fun x => x.id == pk) = none := by
  unfold objects_get at h
  cases hf : db.books.find? (fun x => x.id == pk) with
  | none => rfl
  | some c =>
    rw [hf] at h
    exact absurd h (by simp)

/-- A record found by id-equality search has that id. -/
theorem id_of_find {l : List Book} {k : Nat} {b : Book}
    (h : l.find? (fun x => x.id == k) = some b) : b.id = k := by
  have hp := List.find?_some h
  simpa using hp

/-- Specialization of the positive `find?` cons step to the id search. -/
theorem find_id_cons_pos (a : Book) (t : List Book) (k : Nat)
    (h : (a.id == k) = true) :
    (a :: t).find? (fun x => x.id == k) = some a :=
  List.find?_cons_of_pos t h

/-- Specialization of the negative `find?` cons step to the id search. -/
theorem find_id_cons_neg (a : Book) (t : List Book) (k : Nat)
    (h : (a.id == k) = false) :
    (a :: t).find? (fun x => x.id == k) = t.find? (fun x => x.id == k) :=
  List.find?_cons_of_neg t (by simp [h])

/-- Searching by id after an update-in-place that rewrites the record with
id `k` to `b` finds `b`, provided the original search found some record. -/
theorem find_map_update (l : List Book) (k : Nat) (b0 b : Book)
    (hb : b.id = k) (h : l.find? (fun x => x.id == k) = some b0) :
    (l.map (fun x => if x.id == b.id then b else x)).find?
      (fun x => x.id == k) = some b := by
  induction l with
  | nil => simp at h
  | cons a t ih =>
    by_cases ha : a.id = k
    · simp [hb, ha]
    · have hak : (a.id == k) = false := by simpa using ha
      rw [find_id_cons_neg a t k hak] at h
      simp only [List.map_cons]
      have hfa : (if a.id == b.id then b else a) = a := by
        simp [hb, ha]
      rw [hfa, find_id_cons_neg a _ k hak]
      exact ih h

/-- Searching by id after deleting every record with that id finds nothing. -/
theorem find_filter_ne (l : List Book) (k : Nat) :
    (l.filter (fun x => x.id != k)).find? (fun x => x.id == k) = none := by
  rw [List.find?_eq_none]
  intro x hx
  have hne := (List.mem_filter.mp hx).2
  simpa using hne

/-- When exactly the record `b` satisfies the filter, the search returns it. -/
theorem find_of_filter_singleton (p : Book → Bool) (l : List Book) (b : Book)
    (h : l.filter p = [b]) : l.find? p = some b := by
  induction l with
  | nil => simp at h
  | cons a t ih =>
    by_cases hpa : p a
    · rw [List.filter_cons_of_pos hpa] at h
      have hab : a = b := (List.cons.injEq a (List.filter p t) b []).mp h |>.1
      rw [List.find?_cons_of_pos _ hpa, hab]
    · rw [List.filter_cons_of_neg (by simpa using hpa)] at h
      rw [List.find?_cons_of_neg _ hpa]
      exact ih h

/-- When no record satisfies the filter, the search returns nothing. -/
theorem find_of_filter_nil (p : Book → Bool) (l : List Book)
    (h : l.filter p = []) : l.find? p = none := by
  rw [List.find?_eq_none]
  intro x hx hpx
  have hmem : x ∈ l.filter p := List.mem_filter.mpr ⟨hx, hpx⟩
  rw [h] at hmem
  simp at hmem

/-- Searching an appended fresh record by its fresh id finds it, because
every earlier record has a strictly smaller id. -/
theorem find_append_fresh (l : List Book) (n : Nat) (b : Book)
    (hl : ∀ x ∈ l, x.id < n) (hb : b.id = n) :
    (l ++ [b]).find? (fun x => x.id == n) = some b := by
  induction l with
  | nil =>
    simp only [List.nil_append]
    exact find_id_cons_pos b [] n (by simp [hb])
  | cons a t ih =>
    have ha : (a.id == n) = false := by
      have h1 := hl a (by simp)
      simpa using Nat.ne_of_lt h1
    rw [List.cons_append, find_id_cons_neg a _ n ha]
    exact ih (fun x hx => hl x (by simp [hx]))

/-- Stepping lemma: when the input id identifies an existing record, the
update mutation overwrites the four payload fields, persists with
`save_existing`, and returns the overwritten record. -/
theorem UpdateBook_mutate_found (db : DB) (bd : BookInput) (k : Nat) (b0 : Book)
    (hid : bd.id = some k) (hget : objects_get db k = Except.ok b0) :
    UpdateBook_mutate db bd =
      (save_existing db ⟨b0.id, bd.title, bd.author, bd.year_published, bd.review⟩,
        Except.ok (some ⟨b0.id, bd.title, bd.author, bd.year_published, bd.review⟩)) := by
  unfold UpdateBook_mutate
  simp only [hid, hget, bookTruthy, if_true]

/-- C1: an update mutation whose input id identifies an existing record
overwrites all four fields (title, author, year_published, review) of that
record unconditionally with the input values, persists it, and returns the
updated record; fetching the same id in the post-state yields exactly the
overwritten record (update-then-read consistency, no partial update). -/
theorem C1_update_overwrites_all_fields (db : DB) (bd : BookInput) (k : Nat)
    (b0 : Book) (hid : bd.id = some k)
    (hget : objects_get db k = Except.ok b0) :
    (UpdateBook_mutate db bd).2 =
      Except.ok (some ⟨b0.id, bd.title, bd.author, bd.year_published,
        bd.review⟩) ∧
    resolve_book (UpdateBook_mutate db bd).1 k =
      Except.ok ⟨b0.id, bd.title, bd.author, bd.year_published, bd.review⟩ := by
  have hf := find_of_objects_get hget
  have hidk : b0.id = k := id_of_find hf
  have hstep := UpdateBook_mutate_found db bd k b0 hid hget
  rw [hstep]
  refine ⟨rfl, ?_⟩
  unfold resolve_book
  apply objects_get_of_find
  have hfind := find_map_update db.books k b0
    ⟨b0.id, bd.title, bd.author, bd.year_published, bd.review⟩ hidk hf
  simpa [save_existing] using hfind

/-- C2: when the update mutation's input id matches no existing record the
lookup itself fails with the NotFound-class error, so the
`return UpdateBook(book=None)` branch is unreachable: no execution of the
mutate method ever returns a null book result. -/
theorem C2_update_null_branch_unreachable (db : DB) (bd : BookInput) :
    (∀ k, bd.id = some k →
      objects_get db k = Except.error DbError.DoesNotExist →
      (UpdateBook_mutate db bd).2 = Except.error DbError.DoesNotExist) ∧
    (∀ ob, (UpdateBook_mutate db bd).2 = Except.ok ob → ob ≠ none) := by
  constructor
  · intro k hk hget
    unfold UpdateBook_mutate
    simp only [hk, hget]
  · intro ob hob
    unfold UpdateBook_mutate at hob
    cases hidc : bd.id with
    | none =>
      simp only [hidc] at hob
      simp at hob
    | some pk =>
      simp only [hidc] at hob
      cases hg : objects_get db pk with
      | error e =>
        simp only [hg] at hob
        simp at hob
      | ok bi =>
        intro h0
        subst h0
        simp [hg, bookTruthy] at hob

/-- C4: a delete mutation either fails with the NotFound-class error or
succeeds with a null `book` result field: the mutate method never returns
the deleted record's data, regardless of which record was deleted. -/
theorem C4_delete_result_book_always_null (db : DB) (k : Nat) :
    (DeleteBook_mutate db k).2 = Except.error DbError.DoesNotExist ∨
    (DeleteBook_mutate db k).2 = Except.ok none := by
  unfold DeleteBook_mutate
  cases hg : objects_get db k with
  | error e =>
    left
    cases e
    simp
  | ok bi =>
    right
    simp

/-- C9: an update or delete mutation that fails with the NotFound-class
error leaves the stored state unchanged — the failing lookup happens before
any write, so no record is created, modified or removed. -/
theorem C9_failed_mutation_leaves_state_unchanged (db : DB) (bd : BookInput)
    (k : Nat) :
    ((UpdateBook_mutate db bd).2 = Except.error DbError.DoesNotExist →
      (UpdateBook_mutate db bd).1 = db) ∧
    ((DeleteBook_mutate db k).2 = Except.error DbError.DoesNotExist →
      (DeleteBook_mutate db k).1 = db) := by
  constructor
  · intro h
    unfold UpdateBook_mutate at h ⊢
    cases hidc : bd.id with
    | none => simp [hidc]
    | some pk =>
      cases hg : objects_get db pk with
      | error e => simp [hidc, hg]
      | ok bi =>
        simp [hidc, hg, bookTruthy] at h
  · intro h
    unfold DeleteBook_mutate at h ⊢
    cases hg : objects_get db k with
    | error e => simp [hg]
    | ok bi =>
      simp [hg] at h

/-- C3: a delete mutation for an absent id fails with the NotFound-class
error; for an existing id the record is permanently removed, so afterwards
the `book` query for that id fails with NotFound and no record with that id
appears in the `allBooks` result. -/
theorem C3_delete_removes_record (db : DB) (k : Nat) :
    (objects_get db k = Except.error DbError.DoesNotExist →
      (DeleteBook_mutate db k).2 = Except.error DbError.DoesNotExist) ∧
    (∀ b0, objects_get db k = Except.ok b0 →
      (DeleteBook_mutate db k).2 = Except.ok none ∧
      resolve_book (DeleteBook_mutate db k).1 k =
        Except.error DbError.DoesNotExist ∧
      ∀ x ∈ resolve_all_books (DeleteBook_mutate db k).1, x.id ≠ k) := by
  constructor
  · intro hget
    unfold DeleteBook_mutate
    simp only [hget]
  · intro b0 hget
    have hidk : b0.id = k := id_of_find (find_of_objects_get hget)
    have hm : DeleteBook_mutate db k = (delete_by_id db b0.id, Except.ok none) := by
      unfold DeleteBook_mutate
      simp only [hget]
    rw [hm]
    refine ⟨rfl, ?_, ?_⟩
    · unfold resolve_book
      apply objects_get_of_find_none
      rw [hidk]
      show (db.books.filter (fun x => x.id != k)).find?
        (fun x => x.id == k) = none
      exact find_filter_ne db.books k
    · intro x hx
      have hmem : x ∈ db.books.filter (fun y => y.id != b0.id) := hx
      have hne := (List.mem_filter.mp hmem).2
      rw [hidk] at hne
      simpa using hne

/-- C5: the `book` query returns the unique stored record whose id equals
`book_id` when exactly one such record exists, and fails with the
NotFound-class error, propagated from storage and not caught by the
resolver, when no such record exists. -/
theorem C5_book_query_unique_or_not_found (db : DB) (k : Nat) :
    (db.books.filter (fun x => x.id == k) = [] →
      resolve_book db k = Except.error DbError.DoesNotExist) ∧
    (∀ b, db.books.filter (fun x => x.id == k) = [b] →
      resolve_book db k = Except.ok b) := by
  constructor
  · intro h
    unfold resolve_book
    exact objects_get_of_find_none db k (find_of_filter_nil _ _ h)
  · intro b h
    unfold resolve_book
    exact objects_get_of_find db k b (find_of_filter_singleton _ _ _ h)

/-- C6: the `review` query returns the list of exactly those stored records
whose review field equals `book_review`, and when no record matches the
result is the empty collection rather than an error. -/
theorem C6_review_query_filters (db : DB) (r : Int) :
    (∀ b : Book, b ∈ resolve_review db r ↔ b ∈ objects_all db ∧ b.review = r) ∧
    ((∀ b ∈ objects_all db, b.review ≠ r) → resolve_review db r = []) := by
  constructor
  · intro b
    unfold resolve_review filter_review objects_all
    simp [List.mem_filter]
  · intro h
    unfold resolve_review filter_review
    rw [List.filter_eq_nil_iff]
    intro a ha
    simpa using h a ha

/-- C7: a create mutation inserts a record whose id is assigned by storage
(the next fresh id; any id present in the input is ignored), and the
returned record carries the input's title, author, year_published and
review values. -/
theorem C7_create_assigns_id_copies_fields (db : DB) (bd : BookInput) :
    (CreateBook_mutate db bd).2.id = db.nextId ∧
    (CreateBook_mutate db bd).2.title = bd.title ∧
    (CreateBook_mutate db bd).2.author = bd.author ∧
    (CreateBook_mutate db bd).2.year_published = bd.year_published ∧
    (CreateBook_mutate db bd).2.review = bd.review ∧
    ∀ oid : Option Nat,
      CreateBook_mutate db
          ⟨oid, bd.title, bd.author, bd.year_published, bd.review⟩ =
        CreateBook_mutate db bd :=
  ⟨rfl, rfl, rfl, rfl, rfl, fun _ => rfl⟩

/-- C8: on a well-formed store, a record created by the create mutation and
then fetched by its assigned id is returned unchanged (create-then-fetch
round-trip). -/
theorem C8_create_then_fetch_roundtrip (db : DB) (bd : BookInput)
    (hwf : db.wf) :
    resolve_book (CreateBook_mutate db bd).1 (CreateBook_mutate db bd).2.id =
      Except.ok (CreateBook_mutate db bd).2 := by
  unfold resolve_book
  apply objects_get_of_find
  exact find_append_fresh db.books db.nextId
    ⟨db.nextId, bd.title, bd.author, bd.year_published, bd.review⟩ hwf.2 rfl

/-- C10: a successful update on the record with input id `k` keeps that
record's id unchanged and leaves every stored record whose id differs from
`k` entirely unchanged, position by position; a create mutation appends the
new record, leaving all pre-existing records unchanged. -/
theorem C10_mutations_frame (db : DB) (bd : BookInput) (k : Nat)
    (hid : bd.id = some k) :
    (∀ db' b, UpdateBook_mutate db bd = (db', Except.ok (some b)) →
      b.id = k ∧
      db'.books.length = db.books.length ∧
      ∀ (i : Nat) (x : Book),
        db.books[i]? = some x → x.id ≠ k → db'.books[i]? = some x) ∧
    (CreateBook_mutate db bd).1.books =
      db.books ++ [(CreateBook_mutate db bd).2] := by
  constructor
  · intro db' b hm
    cases hg : objects_get db k with
    | error e =>
      cases e
      unfold UpdateBook_mutate at hm
      simp only [hid, hg] at hm
      simp at hm
    | ok bi =>
      have hbik : bi.id = k := id_of_find (find_of_objects_get hg)
      have hstep := UpdateBook_mutate_found db bd k bi hid hg
      rw [hstep] at hm
      injection hm with h1 h2
      injection h2 with h2
      injection h2 with h2
      subst h1
      subst h2
      refine ⟨hbik, ?_, ?_⟩
      · show (db.books.map _).length = db.books.length
        exact List.length_map db.books _
      · intro i x hix hne
        show (db.books.map _)[i]? = some x
        rw [List.getElem?_map, hix]
        have hcond : (x.id == bi.id) = false := by
          rw [hbik]
          simpa using hne
        simp [hcond]
        intro hxe
        rw [hbik] at hxe
        exact absurd hxe hne
  · rfl

/-- Witness for C1: updating id 1 of the sample store with payload `bd1`
overwrites all four fields and fetching id 1 afterwards returns them. -/
theorem C1_update_overwrites_all_fields_witness :
    (UpdateBook_mutate db0 bd1).2 =
      Except.ok (some ⟨book1.id, bd1.title, bd1.author, bd1.year_published,
        bd1.review⟩) ∧
    resolve_book (UpdateBook_mutate db0 bd1).1 1 =
      Except.ok ⟨book1.id, bd1.title, bd1.author, bd1.year_published,
        bd1.review⟩ :=
  C1_update_overwrites_all_fields db0 bd1 1 book1 rfl rfl

/-- Witness for C2: on the sample store the update with absent id 99 fails
with NotFound, and the update with present id 1 does not return a null
book. -/
theorem C2_update_null_branch_unreachable_witness :
    (UpdateBook_mutate db0 bd99).2 = Except.error DbError.DoesNotExist ∧
    (UpdateBook_mutate db0 bd1).2 ≠ Except.ok none :=
  ⟨(C2_update_null_branch_unreachable db0 bd99).1 99 rfl rfl,
    fun h => (C2_update_null_branch_unreachable db0 bd1).2 none h rfl⟩

/-- Witness for C3: deleting absent id 99 fails with NotFound; deleting
present id 2 succeeds with a null book, makes `book(2)` fail with NotFound,
and the surviving `book1` has a different id. -/
theorem C3_delete_removes_record_witness :
    (DeleteBook_mutate db0 99).2 = Except.error DbError.DoesNotExist ∧
    (DeleteBook_mutate db0 2).2 = Except.ok none ∧
    resolve_book (DeleteBook_mutate db0 2).1 2 =
      Except.error DbError.DoesNotExist ∧
    book1.id ≠ 2 :=
  have h := (C3_delete_removes_record db0 2).2 book2 rfl
  ⟨(C3_delete_removes_record db0 99).1 rfl, h.1, h.2.1,
    h.2.2 book1 (by decide)⟩

/-- Witness for C5: on the sample store, `book(99)` fails with NotFound and
`book(1)` returns the unique record with id 1. -/
theorem C5_book_query_unique_or_not_found_witness :
    resolve_book db0 99 = Except.error DbError.DoesNotExist ∧
    resolve_book db0 1 = Except.ok book1 :=
  ⟨(C5_book_query_unique_or_not_found db0 99).1 rfl,
    (C5_book_query_unique_or_not_found db0 1).2 book1 rfl⟩

/-- Witness for C6: on the sample store, membership in `review(5)` is
equivalent to being stored with review 5, and `review(7)` is empty. -/
theorem C6_review_query_filters_witness :
    (book1 ∈ resolve_review db0 5 ↔
      book1 ∈ objects_all db0 ∧ book1.review = 5) ∧
    resolve_review db0 7 = [] :=
  ⟨(C6_review_query_filters db0 5).1 book1,
    (C6_review_query_filters db0 7).2 (by decide)⟩

/-- Witness for C8: creating a record on the sample well-formed store and
fetching its assigned id returns the created record. -/
theorem C8_create_then_fetch_roundtrip_witness :
    resolve_book (CreateBook_mutate db0 bd99).1
        (CreateBook_mutate db0 bd99).2.id =
      Except.ok (CreateBook_mutate db0 bd99).2 :=
  C8_create_then_fetch_roundtrip db0 bd99 (by decide)

/-- Witness for C9: on the sample store the update and delete with absent
id 99 both fail and leave the store exactly as it was. -/
theorem C9_failed_mutation_leaves_state_unchanged_witness :
    (UpdateBook_mutate db0 bd99).1 = db0 ∧
    (DeleteBook_mutate db0 99).1 = db0 :=
  ⟨(C9_failed_mutation_leaves_state_unchanged db0 bd99 99).1 rfl,
    (C9_failed_mutation_leaves_state_unchanged db0 bd99 99).2 rfl⟩

/-- Witness for C10: the successful update of id 1 on the sample store
keeps the record's id, preserves the store's length, leaves the record at
position 1 (id 2) unchanged, and the create mutation appends its new
record. -/
theorem C10_mutations_frame_witness :
    (⟨1, "A2", "B", "2020", 5⟩ : Book).id = 1 ∧
    (UpdateBook_mutate db0 bd1).1.books.length = db0.books.length ∧
    (UpdateBook_mutate db0 bd1).1.books[1]? = some book2 ∧
    (CreateBook_mutate db0 bd1).1.books =
      db0.books ++ [(CreateBook_mutate db0 bd1).2] :=
  have h := (C10_mutations_frame db0 bd1 1 rfl).1
    (UpdateBook_mutate db0 bd1).1 ⟨1, "A2", "B", "2020", 5⟩ rfl
  ⟨h.1, h.2.1, h.2.2 1 book2 rfl (by decide),
    (C10_mutations_frame db0 bd1 1 rfl).2⟩

end GraphQLDjango
